import Mathlib

/-!
Verification development for the pgcom database toolkit
(`pgcom/connector.py`, `pgcom/base.py`, `pgcom/exc.py`, `pgcom/listener.py`).

The Python code is shallowly embedded: each side-effecting routine becomes a
Lean function producing an explicit trace of the observable actions it
performs (pool checkouts, sleeps, pool rebuilds, callback invocations, ...),
with the nondeterministic environment (ping results, random draws, driver
outcomes, notification arrivals) supplied as explicit oracle arguments.
-/

namespace Pgcom

/-! ## Exceptions

Python's exception classes, restricted to the kinds the code distinguishes:
ordinary `Exception` subclasses (carrying a message) versus the interrupt
class `KeyboardInterrupt` / `SystemExit` (which do not derive from
`Exception` in Python 3 and are named separately wherever the code wants to
catch them). -/

inductive Exc where
  | exception (msg : String)
  | keyboardInterrupt
  | systemExit
deriving Repr, DecidableEq

/-- `True` exactly for the interrupt-class exceptions `KeyboardInterrupt`
and `SystemExit` (the ones a bare `except Exception` does not catch). -/
def Exc.isInterrupt : Exc → Bool
  | .keyboardInterrupt => true
  | .systemExit => true
  | .exception _ => false

/-! ## Pool state and `Connector.close_all` (connector.py:82-86)

The underlying psycopg2 `AbstractConnectionPool.closeall` raises
`PoolError("connection pool is closed")` when invoked on an already closed
pool; otherwise it closes every tracked connection and sets the `closed`
flag.  `Connector.close_all` guards that primitive with
`if not self._pool.closed`. -/

structure PoolState where
  closed : Bool
  conns : List Nat
deriving Repr, DecidableEq

/-- psycopg2 `AbstractConnectionPool.closeall`: raises on a closed pool,
otherwise closes all tracked connections and marks the pool closed. -/
def closeall (p : PoolState) : Except String PoolState :=
  if p.closed then .error "connection pool is closed"
  else .ok { closed := true, conns := [] }

/-- `Connector.close_all` (connector.py:82-86):
`if not self._pool.closed: self._pool.closeall()`. -/
def close_all (p : PoolState) : Except String PoolState :=
  if !p.closed then closeall p else .ok p

/-! ## `Connector.open_connection` (connector.py:52-74)

The scoped acquisition guard.  Connections are identified by the generation
number of the pool they were drawn from (the code draws one connection per
pool generation inside the retry loop, and every rebuild creates a fresh
generation).  The ping oracle `pingRes n` gives the result of the liveness
check performed at zero-based attempt `n`; the oracle `rand n` gives the
`random.randint(0, 1000)` draw used by the sleep at attempt `n`. -/

inductive ConnEvent where
  | getConn (conn : Nat)
  | sleep (t : ℚ)
  | restartPool (gen : Nat)
  | yieldConn (conn : Nat)
  | putConn (conn : Nat)
deriving Repr, DecidableEq

/-- `Connector._back_off_time` (connector.py:122-124):
`(2 ** n) + (random.randint(0, 1000) / 1000)`, with the random draw `k`
made explicit. -/
def back_off_time (n : Nat) (k : Nat) : ℚ :=
  2 ^ n + (k : ℚ) / 1000

/-- The `for n in range(max_reconnects)` retry loop of `open_connection`
(connector.py:63-70), with `fuel` the number of remaining iterations and
`n` the current loop index (so a top-level call has `fuel = max_reconnects`,
`n = 0`).  Returns the emitted events together with the connection held when
the loop finishes.  The current connection is the one drawn from pool
generation `n` whenever the first `n` pings all failed, hence the second
state component coincides with the loop index at entry. -/
def pingLoop (pingRes : Nat → Bool) (rand : Nat → Nat) :
    Nat → Nat → Nat → List ConnEvent × Nat
  | 0, _, conn => ([], conn)
  | fuel + 1, n, conn =>
      if pingRes n then ([], conn)
      else
        let sleeps : List ConnEvent :=
          if 0 < n then [ConnEvent.sleep (back_off_time (n - 1) (rand n))] else []
        let rest := pingLoop pingRes rand fuel (n + 1) (n + 1)
        (sleeps ++ ConnEvent.restartPool (n + 1) :: ConnEvent.getConn (n + 1) :: rest.1,
          rest.2)

/-- Outcome of the `with` body that receives the yielded connection. -/
inductive BodyOutcome where
  | ok
  | earlyReturn
  | raises (e : Exc)
deriving Repr, DecidableEq

structure RunResult where
  trace : List ConnEvent
  yielded : Nat
  exc : Option Exc
deriving Repr, DecidableEq

/-- `Connector.open_connection` (connector.py:52-74): draw a connection from
the pool, optionally run the ping/rebuild retry loop, yield the resulting
connection to the body, and in all cases return the held connection to the
pool in the `finally` clause.  `exc` is the exception (if any) propagating
out of the `with` block. -/
def open_connection (prePing : Bool) (maxReconnects : Nat)
    (pingRes : Nat → Bool) (rand : Nat → Nat) (body : Nat → BodyOutcome) :
    RunResult :=
  let state :=
    if prePing then pingLoop pingRes rand maxReconnects 0 0 else ([], 0)
  let conn := state.2
  let excOut : Option Exc :=
    match body conn with
    | .ok => none
    | .earlyReturn => none
    | .raises e => some e
  { trace := ConnEvent.getConn 0 :: state.1 ++
      [ConnEvent.yieldConn conn, ConnEvent.putConn conn],
    yielded := conn,
    exc := excOut }

/-! ### Spec-side description of the backoff schedule

`specAttemptEvents` transcribes the spec's wording for what the `n`-th
failed ping attempt should do: the first failure rebuilds immediately with
no sleep; failure `n > 0` first sleeps `2^(n-1) + jitter` seconds.  The
refinement theorem for C2 equates the loop's trace with this schedule. -/

def specAttemptEvents (rand : Nat → Nat) (n : Nat) : List ConnEvent :=
  if n = 0 then [ConnEvent.restartPool 1, ConnEvent.getConn 1]
  else ConnEvent.sleep (2 ^ (n - 1) + (rand n : ℚ) / 1000) ::
    [ConnEvent.restartPool (n + 1), ConnEvent.getConn (n + 1)]

/-- The number of consecutive failed pings starting at attempt `n`, capped
at `fuel` (the number of loop iterations that remain): this is how many
pool rebuilds the retry loop performs. -/
def failStreak (pingRes : Nat → Bool) : Nat → Nat → Nat
  | 0, _ => 0
  | fuel + 1, n => if pingRes n then 0 else failStreak pingRes fuel (n + 1) + 1

theorem pingLoop_characterization (pingRes : Nat → Bool) (rand : Nat → Nat) :
    ∀ fuel n, pingLoop pingRes rand fuel n n =
      (((List.range' n (failStreak pingRes fuel n)).map (specAttemptEvents rand)).flatten,
        n + failStreak pingRes fuel n) := by
  intro fuel
  induction fuel with
  | zero => intro n; simp [pingLoop, failStreak]
  | succ fuel ih =>
      intro n
      by_cases h : pingRes n
      · simp [pingLoop, failStreak, h]
      · have hrange := List.range'_succ n (failStreak pingRes fuel (n + 1)) 1
        simp only [pingLoop, failStreak, h, Bool.false_eq_true, ↓reduceIte,
          ih (n + 1), hrange, List.map_cons, List.flatten_cons, Prod.mk.injEq]
        constructor
        · by_cases hn : n = 0
          · subst hn; simp [specAttemptEvents]
          · have h0 : 0 < n := Nat.pos_of_ne_zero hn
            simp [specAttemptEvents, hn, h0, back_off_time]
        · omega

/-- Concrete oracles used by witnesses and counterexamples. -/
def allDead : Nat → Bool := fun _ => false

def maxJitterDraw : Nat → Nat := fun _ => 1000

def zeroDraw : Nat → Nat := fun _ => 0

def bodyOk : Nat → BodyOutcome := fun _ => BodyOutcome.ok

/-- With every ping reporting the connection dead, the loop uses all its
fuel: `max_reconnects` rebuilds happen. -/
theorem failStreak_allDead (fuel : Nat) :
    ∀ n, failStreak allDead fuel n = fuel := by
  induction fuel with
  | zero => intro n; rfl
  | succ fuel ih => intro n; simp [failStreak, allDead, ih]

/-- Event classifiers used to state trace properties. -/
def ConnEvent.isPut : ConnEvent → Bool
  | .putConn _ => true
  | _ => false

def ConnEvent.isRestart : ConnEvent → Bool
  | .restartPool _ => true
  | _ => false

/-- Filtering the scheduled ping-loop events with a classifier that selects
nothing from any single attempt selects nothing overall. -/
theorem flatten_filter_empty (f : ConnEvent → Bool) (rand : Nat → Nat)
    (hf : ∀ n, (specAttemptEvents rand n).filter f = []) :
    ∀ len s,
      (((List.range' s len).map (specAttemptEvents rand)).flatten.filter f) = [] := by
  intro len
  induction len with
  | zero => intro s; simp
  | succ len ih =>
      intro s
      rw [List.range'_succ]
      simp [List.filter_append, hf s, ih (s + 1)]

/-- Each scheduled attempt contains exactly one pool rebuild. -/
theorem flatten_filter_restart (rand : Nat → Nat) :
    ∀ len s,
      ((((List.range' s len).map (specAttemptEvents rand)).flatten.filter
        ConnEvent.isRestart)).length = len := by
  intro len
  induction len with
  | zero => intro s; simp
  | succ len ih =>
      intro s
      rw [List.range'_succ, List.map_cons, List.flatten_cons, List.filter_append,
        List.length_append, ih (s + 1)]
      by_cases hs : s = 0 <;>
        simp [specAttemptEvents, hs, ConnEvent.isRestart, Nat.add_comm]

/-- No scheduled attempt returns a connection to the pool. -/
theorem specAttemptEvents_no_put (rand : Nat → Nat) (n : Nat) :
    (specAttemptEvents rand n).filter ConnEvent.isPut = [] := by
  by_cases hn : n = 0 <;> simp [specAttemptEvents, hn, ConnEvent.isPut]

/-- C10: calling `close_all` twice in a row is a no-op the second time and
never raises; on an already-closed pool the state is left unchanged. -/
theorem C10_close_all_idempotent (p : PoolState) :
    (close_all p).isOk = true ∧
    (close_all p).bind close_all = close_all p ∧
    close_all { p with closed := true } = Except.ok { p with closed := true } := by
  by_cases h : p.closed <;>
    simp [close_all, closeall, h, Except.bind, Except.isOk, Except.toBool]

/-- C4: on every exit path of the scoped acquisition (body succeeded, raised
or returned early, any ping/backoff history), the yielded connection is
returned to the current pool exactly once, as the final action. -/
theorem C4_putconn_exactly_once (prePing : Bool) (maxReconnects : Nat)
    (pingRes : Nat → Bool) (rand : Nat → Nat) (body : Nat → BodyOutcome) :
    ((open_connection prePing maxReconnects pingRes rand body).trace.filter
        ConnEvent.isPut) =
      [ConnEvent.putConn (open_connection prePing maxReconnects pingRes rand body).yielded] ∧
    (open_connection prePing maxReconnects pingRes rand body).trace.getLast? =
      some (ConnEvent.putConn
        (open_connection prePing maxReconnects pingRes rand body).yielded) := by
  have hempty : (if prePing then pingLoop pingRes rand maxReconnects 0 0
      else (([], 0) : List ConnEvent × Nat)).1.filter ConnEvent.isPut = [] := by
    by_cases hp : prePing
    · rw [if_pos hp, pingLoop_characterization pingRes rand maxReconnects 0]
      exact flatten_filter_empty ConnEvent.isPut rand
        (specAttemptEvents_no_put rand) (failStreak pingRes maxReconnects 0) 0
    · simp [hp]
  constructor
  · simp [open_connection, List.filter_append, List.filter_cons, hempty, ConnEvent.isPut]
  · simp only [open_connection]
    rw [show ∀ (l : List ConnEvent) (a b c : ConnEvent),
          a :: l ++ [b, c] = (a :: (l ++ [b])) ++ [c] by intro l a b c; simp]
    rw [List.getLast?_concat]

/-- C5: with liveness checking on and every ping reporting the connection
dead, the guard raises nothing of its own, performs exactly
`max_reconnects` pool rebuilds, and yields the connection drawn after the
last rebuild (never itself pinged, so possibly still dead). -/
theorem C5_budget_exhausted_yields (maxReconnects : Nat) (rand : Nat → Nat) :
    (open_connection true maxReconnects allDead rand bodyOk).exc = none ∧
    (open_connection true maxReconnects allDead rand bodyOk).yielded = maxReconnects ∧
    ConnEvent.yieldConn maxReconnects ∈
      (open_connection true maxReconnects allDead rand bodyOk).trace ∧
    ((open_connection true maxReconnects allDead rand bodyOk).trace.filter
        ConnEvent.isRestart).length = maxReconnects := by
  have hchar := pingLoop_characterization allDead rand maxReconnects 0
  have hst := failStreak_allDead maxReconnects 0
  rw [hst] at hchar
  refine ⟨rfl, ?_, ?_, ?_⟩
  · simp [open_connection, hchar]
  · simp [open_connection, hchar]
  · have h1 : (open_connection true maxReconnects allDead rand bodyOk).trace =
        ConnEvent.getConn 0 ::
          (((List.range' 0 maxReconnects).map (specAttemptEvents rand)).flatten
            ++ [ConnEvent.yieldConn maxReconnects, ConnEvent.putConn maxReconnects]) := by
      simp [open_connection, hchar]
    have hx : ConnEvent.isRestart (ConnEvent.getConn 0) = false := rfl
    rw [h1, List.filter_cons, hx, if_neg (by simp), List.filter_append,
      List.length_append, flatten_filter_restart rand maxReconnects 0]
    simp [ConnEvent.isRestart]

/-- C2 (amended): with liveness checking enabled, the retry loop's trace is
exactly the schedule in which failed attempt 0 rebuilds the pool with no
prior sleep, and each failed attempt `n + 1` first sleeps
`back_off_time n = 2^n + jitter` seconds where the jitter `k / 1000`
(for a draw `k = randint(0, 1000)`) lies in the closed interval `[0, 1]`. -/
theorem C2_backoff_schedule (pingRes : Nat → Bool) (rand : Nat → Nat)
    (maxReconnects : Nat) (hr : ∀ n, rand n ≤ 1000) :
    (pingLoop pingRes rand maxReconnects 0 0).1 =
      ((List.range' 0 (failStreak pingRes maxReconnects 0)).map
        (specAttemptEvents rand)).flatten ∧
    specAttemptEvents rand 0 = [ConnEvent.restartPool 1, ConnEvent.getConn 1] ∧
    (∀ n, specAttemptEvents rand (n + 1) =
      ConnEvent.sleep (2 ^ n + (rand (n + 1) : ℚ) / 1000) ::
        [ConnEvent.restartPool (n + 2), ConnEvent.getConn (n + 2)]) ∧
    (∀ n, 0 ≤ ((rand n : ℚ) / 1000) ∧ ((rand n : ℚ) / 1000) ≤ 1) := by
  refine ⟨?_, rfl, ?_, ?_⟩
  · rw [pingLoop_characterization]
  · intro n; simp [specAttemptEvents]
  · intro n
    refine ⟨by positivity, ?_⟩
    rw [div_le_one (by norm_num)]
    exact_mod_cast hr n

theorem C2_backoff_schedule_witness :
    (pingLoop allDead zeroDraw 3 0 0).1 =
      ((List.range' 0 (failStreak allDead 3 0)).map (specAttemptEvents zeroDraw)).flatten :=
  (C2_backoff_schedule allDead zeroDraw 3 (fun _ => Nat.zero_le 1000)).1

/-- C2 is false exactly as stated: `random.randint(0, 1000)` is inclusive
on both ends, so the jitter can equal 1.  In the concrete run below the
sleep before the second rebuild is `back_off_time 0 1000 = 2`, whose jitter
`2 - 2^0 = 1` is not in the half-open interval `[0, 1)`. -/
theorem C2_jitter_counterexample :
    (open_connection true 2 allDead maxJitterDraw bodyOk).trace =
      [ConnEvent.getConn 0, ConnEvent.restartPool 1, ConnEvent.getConn 1,
       ConnEvent.sleep (back_off_time 0 1000), ConnEvent.restartPool 2,
       ConnEvent.getConn 2, ConnEvent.yieldConn 2, ConnEvent.putConn 2] ∧
    back_off_time 0 1000 - 2 ^ 0 = 1 ∧
    ¬ (back_off_time 0 1000 - 2 ^ 0 < 1) := by
  refine ⟨rfl, by norm_num [back_off_time], by norm_num [back_off_time]⟩

/-! ## `BaseCommuter._execute` and `BaseCommuter.execute` (base.py:100-183)

The driver-facing behaviour of the cursor and connection is abstracted into
`DbBehavior`: the outcome of `cur.execute` / `execute_batch`, the cursor's
result metadata (`cur.description`, as the list of column names) and
fetched rows, and the outcomes of `conn.commit` / `conn.rollback`.  Errors
carry their Python `str` message. -/

structure DbBehavior where
  execResult : Except String Unit
  description : Option (List String)
  fetched : List (List String)
  commitResult : Except String Unit
  rollbackResult : Except String Unit
deriving Repr

/-- An error raised by `_execute`, always a `QueryExecutionError`.
`rollbackAttempted` records that `conn.rollback()` was called before the
raise; `withTraceback` records that the raise went through
`exc.raise_with_traceback` (exc.py:16-21), which re-raises with the
traceback from `sys.exc_info()`. -/
structure ExecErr where
  message : String
  rollbackAttempted : Bool
  withTraceback : Bool
deriving Repr, DecidableEq

/-- Message of base.py:176-177:
`f'Execution failed on sql: {cmd}\n{ex}\n unable to rollback'`. -/
def rollbackFailMessage (cmd ex : String) : String :=
  "Execution failed on sql: " ++ cmd ++ "\n" ++ ex ++ "\n unable to rollback"

/-- Message of base.py:181: `f'Execution failed on sql: {cmd}\n{e}\n'`. -/
def execFailMessage (cmd e : String) : String :=
  "Execution failed on sql: " ++ cmd ++ "\n" ++ e ++ "\n"

/-- The `except` clause of `_execute` (base.py:170-181): attempt
`conn.rollback()`; if the rollback itself raises `ex`, raise a
`QueryExecutionError` whose message holds the command and the rollback
error; otherwise raise one whose message holds the command and the
original error `e`. -/
def onExecFailure (cmd e : String) (db : DbBehavior) : ExecErr :=
  match db.rollbackResult with
  | .error ex =>
      { message := rollbackFailMessage cmd ex,
        rollbackAttempted := true, withTraceback := true }
  | .ok _ =>
      { message := execFailMessage cmd e,
        rollbackAttempted := true, withTraceback := true }

/-- `BaseCommuter._execute` (base.py:123-183).  `batch` selects
`execute_batch` over `cur.execute`; both driver calls are abstracted by
`db.execResult`.  On success, rows and column names are drained from the
cursor when `cur.description` is not `None`, otherwise both results stay
the empty lists they were initialised to; the transaction is committed
when `commit` is set, and a commit failure takes the same
rollback-and-raise path as an execution failure. -/
def executeImpl (cmd : String) (commit batch : Bool) (db : DbBehavior) :
    Except ExecErr (List (List String) × List String) :=
  match db.execResult with
  | .error e => .error (onExecFailure cmd e db)
  | .ok _ =>
      let res : List (List String) × List String :=
        match db.description with
        | some cols => (db.fetched, cols)
        | none => ([], [])
      if commit then
        match db.commitResult with
        | .error e => .error (onExecFailure cmd e db)
        | .ok _ => .ok res
      else .ok res

/-- `BaseCommuter.execute` (base.py:100-121): calls `_execute` with the
default `commit=True`, `batch=False`, discards its result and returns
`None` (modelled as `Unit`), while its docstring documents a return of the
rows and the column names. -/
def execute (cmd : String) (db : DbBehavior) : Except ExecErr Unit :=
  match executeImpl cmd true false db with
  | .error err => .error err
  | .ok _ => .ok ()

/-- Concrete driver behaviours used by witnesses and counterexamples. -/
def dbBothFail : DbBehavior :=
  { execResult := .error "division by zero",
    description := none, fetched := [],
    commitResult := .ok (),
    rollbackResult := .error "connection already closed" }

def dbSelectOne : DbBehavior :=
  { execResult := .ok (),
    description := some ["?column?"], fetched := [["1"]],
    commitResult := .ok (), rollbackResult := .ok () }

def dbNoResult : DbBehavior :=
  { execResult := .ok (),
    description := none, fetched := [],
    commitResult := .ok (), rollbackResult := .ok () }

/-- C1 (amended): when execution fails and the rollback also fails, the
raised error is a typed execution error produced via the
traceback-preserving re-raise, raised only after the rollback attempt, and
its message embeds the command text and the rollback failure (flagged by
`unable to rollback`) — but not the original execution error. -/
theorem C1_rollback_failure_message (cmd e ex : String) (db : DbBehavior)
    (commit batch : Bool)
    (hexec : db.execResult = .error e) (hrb : db.rollbackResult = .error ex) :
    executeImpl cmd commit batch db =
      .error { message := rollbackFailMessage cmd ex,
               rollbackAttempted := true, withTraceback := true } ∧
    cmd.toList <:+: (rollbackFailMessage cmd ex).toList ∧
    ex.toList <:+: (rollbackFailMessage cmd ex).toList := by
  refine ⟨?_, ?_, ?_⟩
  · simp [executeImpl, hexec, onExecFailure, hrb]
  · exact ⟨"Execution failed on sql: ".toList,
      ("\n" ++ ex ++ "\n unable to rollback").toList,
      by simp [rollbackFailMessage, String.toList]⟩
  · exact ⟨("Execution failed on sql: " ++ cmd ++ "\n").toList,
      "\n unable to rollback".toList,
      by simp [rollbackFailMessage, String.toList]⟩

theorem C1_rollback_failure_message_witness :
    executeImpl "DROP TABLE t" true false dbBothFail =
      .error { message := rollbackFailMessage "DROP TABLE t" "connection already closed",
               rollbackAttempted := true, withTraceback := true } ∧
    "DROP TABLE t".toList <:+:
      (rollbackFailMessage "DROP TABLE t" "connection already closed").toList ∧
    "connection already closed".toList <:+:
      (rollbackFailMessage "DROP TABLE t" "connection already closed").toList :=
  C1_rollback_failure_message "DROP TABLE t" "division by zero"
    "connection already closed" dbBothFail true false rfl rfl

set_option maxRecDepth 4000 in
/-- C1 is false as stated for the dual-failure case: the message built at
base.py:176-177 interpolates only the command and the rollback error, so
the original execution error (`division by zero` below) does not appear in
the raised error's message. -/
theorem C1_counterexample :
    executeImpl "DROP TABLE t" true false dbBothFail =
      .error { message := rollbackFailMessage "DROP TABLE t" "connection already closed",
               rollbackAttempted := true, withTraceback := true } ∧
    ¬ ("division by zero".toList <:+:
      (rollbackFailMessage "DROP TABLE t" "connection already closed").toList) := by
  exact ⟨rfl, by decide⟩

/-- C3: `_execute` does return the (rows, column names) pair — both empty
simultaneously when the cursor exposes no result metadata — but the public
`execute` wrapping it discards that pair and returns `None`, contradicting
its own docstring (base.py:113-115) and the spec's contract. -/
theorem C3_execute_drops_result :
    executeImpl "SELECT 1" true false dbSelectOne = .ok ([["1"]], ["?column?"]) ∧
    executeImpl "CREATE TABLE t (a int)" true false dbNoResult = .ok ([], []) ∧
    execute "SELECT 1" dbSelectOne = .ok () := by
  exact ⟨rfl, rfl, rfl⟩

/-! ## `Listener.poll` and `Listener._callback` (listener.py:56-109, 196-202)

The poll loop is embedded as a trace-producing function.  Each user
callback is an oracle returning a `CbOutcome` (normal return, or a raised
exception); a callback slot is `none` when the caller passed no callback.
The environment drives the `while 1` loop through a script of
`LoopStep`s: a `select` timeout, data ready with a batch of pending
notification payloads (in the arrival order of `conn.notifies`), or an
exception raised by the driver calls (`select` / `conn.poll`).  Since the
loop can only be left by an exception, a run whose script ends without one
is reported as `looping`. -/

inductive CbOutcome where
  | ok
  | raises (e : Exc)
deriving Repr, DecidableEq

inductive LEvent where
  | getConnFromPool (conn : Nat)
  | setAutocommit
  | listen (channel : String)
  | unlisten (channel : String)
  | callOnTimeout
  | callOnNotify (payload : String)
  | callOnClose
  | callOnError (e : Exc)
  | logCallbackError (e : Exc)
  | putConnToPool (conn : Nat)
deriving Repr, DecidableEq

/-- `Listener._callback` (listener.py:196-202): invoke the callback when
one is provided, catching `except Exception` (logging and swallowing it);
interrupt-class raises are not `Exception` subclasses and escape. -/
def callbackRun (callEv : LEvent) (out : Option CbOutcome) :
    List LEvent × Option Exc :=
  match out with
  | none => ([], none)
  | some .ok => ([callEv], none)
  | some (.raises e) =>
      if e.isInterrupt then ([callEv], some e)
      else ([callEv, .logCallbackError e], none)

/-- The inner drain loop (listener.py:98-100):
`while conn.notifies: notify = conn.notifies.pop(0);
self._callback(on_notify, notify.payload)`. -/
def drain (onNotifyB : Option (String → CbOutcome)) :
    List String → List LEvent × Option Exc
  | [] => ([], none)
  | p :: ps =>
      let c := callbackRun (.callOnNotify p) (onNotifyB.map (fun f => f p))
      match c.2 with
      | some e => (c.1, some e)
      | none =>
          let rest := drain onNotifyB ps
          (c.1 ++ rest.1, rest.2)

inductive LoopStep where
  | timeout
  | ready (notifies : List String)
  | raiseStep (e : Exc)
deriving Repr, DecidableEq

/-- The `while 1` wait loop (listener.py:92-100): a timed-out `select`
invokes `on_timeout` through `_callback`; readiness drains the pending
notifications; a driver exception leaves the loop.  The second component
is the exception escaping the loop body, `none` while the script lasts. -/
def loopRun (onNotifyB : Option (String → CbOutcome))
    (onTimeoutB : Option CbOutcome) : List LoopStep → List LEvent × Option Exc
  | [] => ([], none)
  | LoopStep.timeout :: rest =>
      let c := callbackRun .callOnTimeout onTimeoutB
      match c.2 with
      | some e => (c.1, some e)
      | none =>
          let r := loopRun onNotifyB onTimeoutB rest
          (c.1 ++ r.1, r.2)
  | LoopStep.ready ns :: rest =>
      let c := drain onNotifyB ns
      match c.2 with
      | some e => (c.1, some e)
      | none =>
          let r := loopRun onNotifyB onTimeoutB rest
          (c.1 ++ r.1, r.2)
  | LoopStep.raiseStep e :: _ => ([], some e)

inductive PollResult where
  | looping
  | exited (escaped : Option Exc)
deriving Repr, DecidableEq

structure PollRun where
  trace : List LEvent
  result : PollResult
deriving Repr, DecidableEq

/-- `Listener.poll` (listener.py:85-109): draw a connection from the
connector's pool through the `open_connection` guard, set autocommit,
issue `LISTEN`, run the wait loop; when an exception `e` leaves the loop,
issue `UNLISTEN`, then call `on_close` through `_callback` if `e` is
`KeyboardInterrupt`/`SystemExit` and `on_error(e)` otherwise; the guard's
`finally` returns the connection to the pool on every exit, and an
exception escaping the classification callback propagates out of `poll`
(recorded in `PollResult.exited`). -/
def poll (channel : String) (onNotifyB : Option (String → CbOutcome))
    (onTimeoutB onCloseB : Option CbOutcome)
    (onErrorB : Option (Exc → CbOutcome)) (steps : List LoopStep) : PollRun :=
  let pre : List LEvent :=
    [.getConnFromPool 0, .setAutocommit, .listen channel]
  let loopOut := loopRun onNotifyB onTimeoutB steps
  match loopOut.2 with
  | none => { trace := pre ++ loopOut.1, result := .looping }
  | some e =>
      let handler :=
        if e.isInterrupt then callbackRun .callOnClose onCloseB
        else callbackRun (.callOnError e) (onErrorB.map (fun f => f e))
      { trace := pre ++ loopOut.1 ++ LEvent.unlisten channel :: handler.1
          ++ [.putConnToPool 0],
        result := .exited handler.2 }

/-- Pool checkout/checkin events, used to state that the wait loop itself
touches no pool connection. -/
def LEvent.isPoolEvent : LEvent → Bool
  | .getConnFromPool _ => true
  | .putConnToPool _ => true
  | _ => false

theorem callbackRun_no_pool (ev : LEvent) (out : Option CbOutcome)
    (hev : ev.isPoolEvent = false) :
    ∀ x ∈ (callbackRun ev out).1, x.isPoolEvent = false := by
  intro x hx
  match out with
  | none => simp [callbackRun] at hx
  | some .ok =>
      simp [callbackRun] at hx
      simp [hx, hev]
  | some (.raises e) =>
      by_cases hi : e.isInterrupt
      · simp [callbackRun, hi] at hx
        simp [hx, hev]
      · simp [callbackRun, hi] at hx
        rcases hx with hx | hx
        · simp [hx, hev]
        · simp [hx, LEvent.isPoolEvent]

theorem drain_no_pool (onNotifyB : Option (String → CbOutcome)) :
    ∀ ns, ∀ x ∈ (drain onNotifyB ns).1, x.isPoolEvent = false := by
  intro ns
  induction ns with
  | nil => intro x hx; simp [drain] at hx
  | cons p ps ih =>
      intro x hx
      have hcb := callbackRun_no_pool (.callOnNotify p)
        (onNotifyB.map (fun f => f p)) rfl
      rcases hc : (callbackRun (.callOnNotify p) (onNotifyB.map (fun f => f p))).2 with _ | e
      · simp only [drain, hc] at hx
        rcases List.mem_append.mp hx with hx | hx
        · exact hcb x hx
        · exact ih x hx
      · simp only [drain, hc] at hx
        exact hcb x hx

theorem loopRun_no_pool (onNotifyB : Option (String → CbOutcome))
    (onTimeoutB : Option CbOutcome) :
    ∀ steps, ∀ x ∈ (loopRun onNotifyB onTimeoutB steps).1,
      x.isPoolEvent = false := by
  intro steps
  induction steps with
  | nil => intro x hx; simp [loopRun] at hx
  | cons s rest ih =>
      intro x hx
      cases s with
      | timeout =>
          have hcb := callbackRun_no_pool .callOnTimeout onTimeoutB rfl
          rcases hc : (callbackRun .callOnTimeout onTimeoutB).2 with _ | e
          · simp only [loopRun, hc] at hx
            rcases List.mem_append.mp hx with hx | hx
            · exact hcb x hx
            · exact ih x hx
          · simp only [loopRun, hc] at hx
            exact hcb x hx
      | ready ns =>
          have hdr := drain_no_pool onNotifyB ns
          rcases hc : (drain onNotifyB ns).2 with _ | e
          · simp only [loopRun, hc] at hx
            rcases List.mem_append.mp hx with hx | hx
            · exact hdr x hx
            · exact ih x hx
          · simp only [loopRun, hc] at hx
            exact hdr x hx
      | raiseStep e => simp [loopRun] at hx

/-- Every invocation of `_callback` with a provided callback emits its
call event. -/
theorem callbackRun_mem (ev : LEvent) (f : CbOutcome) :
    ev ∈ (callbackRun ev (some f)).1 := by
  cases f with
  | ok => simp [callbackRun]
  | raises e => by_cases hi : e.isInterrupt <;> simp [callbackRun, hi]

/-- Concrete listener inputs used by witnesses and counterexamples. -/
def stepsKI : List LoopStep := [LoopStep.raiseStep Exc.keyboardInterrupt]

def stepsDbErr : List LoopStep := [LoopStep.raiseStep (Exc.exception "db down")]

def onErrorRaises : Exc → CbOutcome :=
  fun _ => CbOutcome.raises (Exc.exception "cb boom")

def cbOk : String → CbOutcome := fun _ => CbOutcome.ok

def constErr : Exc → CbOutcome := fun e => CbOutcome.raises e

/-- C6 is false as stated: the connection carrying `LISTEN`/the wait loop
is obtained from the connector's pool (`with self.connector.open_connection()`,
listener.py:85) and handed back to it on exit, as this concrete run shows. -/
theorem C6_counterexample :
    poll "ch" none none none none stepsKI =
      { trace := [LEvent.getConnFromPool 0, LEvent.setAutocommit, LEvent.listen "ch",
                  LEvent.unlisten "ch", LEvent.putConnToPool 0],
        result := PollResult.exited none } ∧
    LEvent.getConnFromPool 0 ∈ (poll "ch" none none none none stepsKI).trace ∧
    LEvent.putConnToPool 0 ∈ (poll "ch" none none none none stepsKI).trace := by
  refine ⟨rfl, by decide, by decide⟩

/-- C6 (amended): every poll invocation draws exactly one connection, from
the connector's pool, as its first action, sets autocommit and issues
`LISTEN` on it; the wait loop itself performs no further pool checkout;
and whenever the loop exits, the connection is returned to the pool as the
final action. -/
theorem C6_pool_connection (ch : String) (onN : Option (String → CbOutcome))
    (onT onC : Option CbOutcome) (onE : Option (Exc → CbOutcome))
    (steps : List LoopStep) :
    (poll ch onN onT onC onE steps).trace.take 3 =
      [LEvent.getConnFromPool 0, LEvent.setAutocommit, LEvent.listen ch] ∧
    (poll ch onN onT onC onE steps).trace.count (LEvent.getConnFromPool 0) = 1 ∧
    ((poll ch onN onT onC onE steps).result = PollResult.looping ∨
      (poll ch onN onT onC onE steps).trace.getLast? =
        some (LEvent.putConnToPool 0)) := by
  have hloop : (loopRun onN onT steps).1.count (LEvent.getConnFromPool 0) = 0 := by
    refine List.count_eq_zero.mpr (fun hmem => ?_)
    have := loopRun_no_pool onN onT steps _ hmem
    simp [LEvent.isPoolEvent] at this
  rcases hl : (loopRun onN onT steps).2 with _ | e
  · refine ⟨?_, ?_, Or.inl ?_⟩
    · simp [poll, hl]
    · simp [poll, hl, List.count_append, hloop, List.count_cons]
    · simp [poll, hl]
  · have hhandler : ∀ x ∈ (if e.isInterrupt then callbackRun LEvent.callOnClose onC
        else callbackRun (LEvent.callOnError e) (onE.map (fun f => f e))).1,
        x.isPoolEvent = false := by
      by_cases hi : e.isInterrupt
      · simpa [hi] using callbackRun_no_pool LEvent.callOnClose onC rfl
      · simpa [hi] using
          callbackRun_no_pool (LEvent.callOnError e) (onE.map (fun f => f e)) rfl
    have hhc : (if e.isInterrupt then callbackRun LEvent.callOnClose onC
        else callbackRun (LEvent.callOnError e) (onE.map (fun f => f e))).1.count
          (LEvent.getConnFromPool 0) = 0 := by
      refine List.count_eq_zero.mpr (fun hmem => ?_)
      have := hhandler _ hmem
      simp [LEvent.isPoolEvent] at this
    refine ⟨?_, ?_, Or.inr ?_⟩
    · simp [poll, hl]
    · simp [poll, hl, List.count_append, hloop, List.count_cons, hhc]
    · have htr : (poll ch onN onT onC onE steps).trace =
          ([LEvent.getConnFromPool 0, LEvent.setAutocommit, LEvent.listen ch]
            ++ (loopRun onN onT steps).1 ++ LEvent.unlisten ch ::
              (if e.isInterrupt then callbackRun LEvent.callOnClose onC
                else callbackRun (LEvent.callOnError e) (onE.map (fun f => f e))).1)
            ++ [LEvent.putConnToPool 0] := by
        simp [poll, hl]
      rw [htr, List.getLast?_concat]

/-- C7: whenever an exception `e` leaves the wait loop, `poll` issues
`UNLISTEN` on the channel immediately after the loop's events and before
the classification callback runs, and then classifies the exit:
an interrupt-class `e` (`KeyboardInterrupt`/`SystemExit`) invokes
`on_close()`, any other exception invokes `on_error(e)`. -/
theorem C7_unlisten_then_classify (ch : String) (onN : Option (String → CbOutcome))
    (onT : Option CbOutcome) (fC : CbOutcome) (fE : Exc → CbOutcome)
    (steps : List LoopStep) (e : Exc)
    (h : (loopRun onN onT steps).2 = some e) :
    (poll ch onN onT (some fC) (some fE) steps).trace =
      ([LEvent.getConnFromPool 0, LEvent.setAutocommit, LEvent.listen ch]
          ++ (loopRun onN onT steps).1 ++ [LEvent.unlisten ch])
        ++ ((if e.isInterrupt then callbackRun LEvent.callOnClose (some fC)
              else callbackRun (LEvent.callOnError e) (some (fE e))).1
          ++ [LEvent.putConnToPool 0]) ∧
    (e.isInterrupt = true →
      LEvent.callOnClose ∈ (poll ch onN onT (some fC) (some fE) steps).trace) ∧
    (e.isInterrupt = false →
      LEvent.callOnError e ∈ (poll ch onN onT (some fC) (some fE) steps).trace) := by
  refine ⟨by simp [poll, h], ?_, ?_⟩
  · intro hi
    have hmem := callbackRun_mem LEvent.callOnClose fC
    simp [poll, h, hi]
    tauto
  · intro hi
    have hmem := callbackRun_mem (LEvent.callOnError e) (fE e)
    simp [poll, h, hi]
    tauto

theorem C7_unlisten_then_classify_witness :
    LEvent.callOnClose ∈
      (poll "ch" none none (some CbOutcome.ok) (some constErr) stepsKI).trace :=
  (C7_unlisten_then_classify "ch" none none CbOutcome.ok constErr stepsKI
    Exc.keyboardInterrupt rfl).2.1 rfl

/-- C8 is false as stated: an ordinary exception raised inside `on_error`
is routed through the same guarded `_callback` wrapper
(listener.py:107-109 call listener.py:196-202), so it is caught, logged
and swallowed — `poll` exits with nothing propagating. -/
theorem C8_counterexample :
    poll "ch" none none none (some onErrorRaises) stepsDbErr =
      { trace := [LEvent.getConnFromPool 0, LEvent.setAutocommit, LEvent.listen "ch",
                  LEvent.unlisten "ch", LEvent.callOnError (Exc.exception "db down"),
                  LEvent.logCallbackError (Exc.exception "cb boom"),
                  LEvent.putConnToPool 0],
        result := PollResult.exited none } := rfl

/-- C8 (amended): an ordinary exception raised inside `on_notify` or
`on_timeout` is caught, logged and swallowed and the loop continues with
the remaining script; and `on_close`/`on_error` run through the very same
`_callback` guard, so an ordinary exception raised there is likewise
caught, logged and swallowed rather than propagating out of `poll`. -/
theorem C8_callback_guard (m : String) (onN : Option (String → CbOutcome))
    (rest : List LoopStep) (ch : String) (onT onC : Option CbOutcome)
    (fE : Exc → CbOutcome) (steps : List LoopStep) (e : Exc)
    (h1 : (loopRun onN onT steps).2 = some e) (h2 : e.isInterrupt = false)
    (h3 : fE e = CbOutcome.raises (Exc.exception m)) :
    loopRun onN (some (CbOutcome.raises (Exc.exception m)))
        (LoopStep.timeout :: rest) =
      (LEvent.callOnTimeout :: LEvent.logCallbackError (Exc.exception m) ::
          (loopRun onN (some (CbOutcome.raises (Exc.exception m))) rest).1,
        (loopRun onN (some (CbOutcome.raises (Exc.exception m))) rest).2) ∧
    (poll ch onN onT onC (some fE) steps).result = PollResult.exited none ∧
    LEvent.logCallbackError (Exc.exception m) ∈
      (poll ch onN onT onC (some fE) steps).trace := by
  have he : Exc.isInterrupt (Exc.exception m) = false := rfl
  refine ⟨?_, ?_, ?_⟩
  · simp [loopRun, callbackRun, he]
  · simp [poll, h1, h2, callbackRun, h3, he]
  · simp [poll, h1, h2, callbackRun, h3, he]

theorem C8_callback_guard_witness :
    (poll "ch" none none none (some onErrorRaises) stepsDbErr).result =
      PollResult.exited none :=
  (C8_callback_guard "cb boom" none [] "ch" none none onErrorRaises stepsDbErr
    (Exc.exception "db down") rfl rfl rfl).2.1

/-- C9: when the pending notifications are drained and `on_notify` returns
normally, it is invoked exactly once per pending notification with its raw
payload, in arrival order (`conn.notifies.pop(0)` is FIFO), all within the
single drain cycle of one readiness step of the loop. -/
theorem C9_fifo_drain (f : String → CbOutcome) (ns : List String)
    (onT : Option CbOutcome) (rest : List LoopStep)
    (hok : ∀ p, f p = CbOutcome.ok) :
    drain (some f) ns = (ns.map LEvent.callOnNotify, none) ∧
    loopRun (some f) onT (LoopStep.ready ns :: rest) =
      (ns.map LEvent.callOnNotify ++ (loopRun (some f) onT rest).1,
        (loopRun (some f) onT rest).2) := by
  have hd : drain (some f) ns = (ns.map LEvent.callOnNotify, none) := by
    induction ns with
    | nil => rfl
    | cons p ps ih => simp [drain, callbackRun, hok p, ih]
  exact ⟨hd, by simp [loopRun, hd]⟩

theorem C9_fifo_drain_witness :
    drain (some cbOk) ["a", "b"] =
      ([LEvent.callOnNotify "a", LEvent.callOnNotify "b"], none) :=
  (C9_fifo_drain cbOk ["a", "b"] none [] (fun _ => rfl)).1

end Pgcom
